import Mathlib

/-!
Verification of the TrueFew social app client (src/script.js) against its
natural-language specification.  JavaScript functions are shallowly embedded
as pure Lean functions: DOM reads become explicit arguments, asynchronous
backend calls become oracle arguments (an `Except` for a call that can throw),
and the mutable globals (`users`, `posts`, `currentUser`, localStorage)
become explicit state that is passed in and returned.  Pure console logging
and DOM rendering with no effect on the modelled state are elided.

The script file contains several textual copies of some functions; each
embedding below follows the copy at the line numbers cited by the claim it
serves (noted in its doc comment).
-/

namespace TrueFew

/-- JavaScript string trimming, modelled on the character list:
drop whitespace from both ends.  (The JavaScript and Lean whitespace sets
agree on every character these claims touch.) -/
def jsTrim (s : String) : String :=
  ⟨((s.data.dropWhile Char.isWhitespace).reverse.dropWhile Char.isWhitespace).reverse⟩

/-- JavaScript lower-casing, modelled on the character list. -/
def jsToLower (s : String) : String :=
  ⟨s.data.map Char.toLower⟩

/-- JavaScript `String.prototype.startsWith(p)`, as a prefix test on the
character list of the string. -/
def strStartsWith (p s : String) : Bool :=
  s.data.take p.data.length == p.data

/-- Helper for `strContains`: does `n` occur as a contiguous run inside `h`? -/
def listHasRun (n : List Char) : List Char → Bool
  | [] => n.isEmpty
  | c :: rest => (List.take n.length (c :: rest) == n) || listHasRun n rest

/-- JavaScript `String.prototype.includes(n)`: substring occurrence test. -/
def strContains (n s : String) : Bool :=
  listHasRun n.data s.data

/-- ASCII range `[a-z]` of the password regex. -/
def isLowerAZ (c : Char) : Bool := 'a' ≤ c && c ≤ 'z'

/-- ASCII range `[A-Z]` of the password regex. -/
def isUpperAZ (c : Char) : Bool := 'A' ≤ c && c ≤ 'Z'

/-- `\d` of the password regex (ASCII digits, no `u` flag). -/
def isDigit09 (c : Char) : Bool := '0' ≤ c && c ≤ '9'

/-- The special characters admitted by the regex character class. -/
def isSpecialPwChar (c : Char) : Bool :=
  c == '@' || c == '$' || c == '!' || c == '%' || c == '*' || c == '?' || c == '&'

/-- The regex character class `[A-Za-z\d@$!%*?&]`. -/
def isAllowedPwChar (c : Char) : Bool :=
  isLowerAZ c || isUpperAZ c || isDigit09 c || isSpecialPwChar c

/-- A lookahead `(?=.*[X])` anchored at the start of the string: some
character of the string satisfies `f`.  (`.` excludes newline, but the body
class `[A-Za-z\d@$!%*?&]` excludes newline as well, so on any string the
whole regex can accept this reading is exact.) -/
def pwLookahead (f : Char → Bool) (p : String) : Bool :=
  p.data.any f

/-- The anchored body `^[A-Za-z\d@$!%*?&]{8,}$`: every character is in the
class and there are at least eight of them. -/
def pwBody (p : String) : Bool :=
  p.data.all isAllowedPwChar && decide (8 ≤ p.length)

/-- Embeds `validatePassword` (src/script.js:1548-1556): the guard
`!password` sends the empty string to `false`, then the function returns
`regex.test(password)` for
`^(?=.*[a-z])(?=.*[A-Z])(?=.*\d)[A-Za-z\d@$!%*?&]{8,}$`. -/
def validatePassword (password : String) : Bool :=
  if password == "" then false
  else
    pwLookahead isLowerAZ password
      && pwLookahead isUpperAZ password
      && pwLookahead isDigit09 password
      && pwBody password

/-- A user profile document as written by `submitSignUp`
(src/script.js:1400-1415): exactly the fields of the `set` call.
`createdAt` (a server timestamp sentinel) is represented by the unit-like
marker below. -/
structure UserDoc where
  fullName : String
  username : String
  email : String
  city : String
  stateF : String
  country : String
  interests : List String
  avatar : String
  aboutMe : String
  friends : List String
  friendRequests : List String
  messages : List String
  deriving DecidableEq, Repr

/-- Backend state visible to the sign-up and sign-in flows: the set of auth
accounts (by email) and the `users` collection of profile documents keyed by
uid. -/
structure Backend where
  authAccounts : List String
  userDocs : List (String × UserDoc)
  deriving DecidableEq, Repr

/-- The values read from the sign-up form by `submitSignUp`
(src/script.js:1316-1323).  `imageFile` records whether a file input was
present. -/
structure SignUpForm where
  fullName : String
  username : String
  email : String
  password : String
  city : String
  stateF : String
  country : String
  imageFile : Bool
  selectedInterests : List String
  deriving DecidableEq, Repr

/-- Outcome of the asynchronous image resize / FileReader pipeline inside
`submitSignUp` (src/script.js:1356-1383): either the reader produced a
result string, or the resize or read threw (caught by the inner catch, which
keeps the default avatar). -/
inductive ImageOutcome
  | fileRead (result : String)
  | failure
  deriving DecidableEq, Repr

/-- The generated placeholder avatar URL used by `submitSignUp`
(`encodeURIComponent` of the name is modelled as the name itself; only the
URL scheme matters to the claims). -/
def generatedPlaceholder (fullName : String) : String :=
  "https://ui-avatars.com/api/?name=" ++ fullName ++ "&size=150&background=667eea&color=fff"

/-- The avatar value `submitSignUp` computes before writing the profile
document (src/script.js:1353-1390): default placeholder; a FileReader result
is accepted only when it is a `data:` URL; a final guard replaces an empty
or `blob:`-prefixed value with the placeholder. -/
def signUpAvatarUrl (fullName : String) (imageFile : Bool) (img : ImageOutcome) : String :=
  let placeholder := generatedPlaceholder fullName
  let avatarUrl :=
    if imageFile then
      match img with
      | .fileRead result =>
          if strStartsWith "data:" result then result else placeholder
      | .failure => placeholder
    else placeholder
  if avatarUrl == "" || strStartsWith "blob:" avatarUrl then
    generatedPlaceholder fullName
  else avatarUrl

/-- Which branch `submitSignUp` returned from; the error constructors name
the message displayed there. -/
inductive SignUpOutcome
  | missingFields
  | tooFewInterests
  | invalidPassword
  | usernameExists
  | authCreateFailed (msg : String)
  | accountCreated (uid : String)
  deriving DecidableEq, Repr

/-- Embeds `submitSignUp` (src/script.js:1314-1436, the copy cited by the
claims).  `authResult` is the oracle for
`auth.createUserWithEmailAndPassword` (`ok uid` creates the account, `error`
is the thrown code surfaced by the outer catch); `img` is the oracle for the
image pipeline.  On success the function writes the profile document and
signs the fresh session out again (the session is not part of this state). -/
def submitSignUp (form : SignUpForm) (img : ImageOutcome)
    (authResult : Except String String) (b : Backend) : SignUpOutcome × Backend :=
  let fullName := jsTrim form.fullName
  let username := jsTrim form.username
  let email := jsTrim form.email
  let password := form.password
  let city := jsTrim form.city
  let stateV := jsTrim form.stateF
  let country := jsTrim form.country
  if fullName = "" ∨ username = "" ∨ email = "" ∨ password = "" ∨
      city = "" ∨ stateV = "" ∨ country = "" then
    (.missingFields, b)
  else if form.selectedInterests.length < 8 then
    (.tooFewInterests, b)
  else if validatePassword password = false then
    (.invalidPassword, b)
  else if b.userDocs.any (fun d => d.2.username == (jsToLower username)) then
    (.usernameExists, b)
  else
    match authResult with
    | .error msg => (.authCreateFailed msg, b)
    | .ok uid =>
        let avatarUrl := signUpAvatarUrl fullName form.imageFile img
        let doc : UserDoc :=
          { fullName := fullName
            username := (jsToLower username)
            email := email
            city := city
            stateF := stateV
            country := country
            interests := form.selectedInterests
            avatar := avatarUrl
            aboutMe := ""
            friends := []
            friendRequests := []
            messages := [] }
        (.accountCreated uid,
          { b with
              authAccounts := b.authAccounts ++ [email]
              userDocs := b.userDocs ++ [(uid, doc)] })

/-- The authenticated session object returned by
`auth.signInWithEmailAndPassword`. -/
structure AuthUser where
  uid : String
  emailVerified : Bool
  deriving DecidableEq, Repr

/-- Which branch `submitSignIn` returned from. -/
inductive SignInOutcome
  | missingFields
  | authFailed (msg : String)
  | unverifiedBlocked
  | profileMissing
  | signedIn
  deriving DecidableEq, Repr

/-- The observable effects of one `submitSignIn` call. -/
structure SignInResult where
  outcome : SignInOutcome
  currentUser : Option (String × UserDoc)
  dashboardShown : Bool
  sessionActive : Bool
  deriving DecidableEq, Repr

/-- Embeds `submitSignIn` (src/script.js:1438-1506, the copy cited by the
claims).  `devMode` is the value of
`localStorage.getItem(truefew_dev_mode) === true-string`; `authResult` is
the oracle for `auth.signInWithEmailAndPassword`; `docs` is the `users`
collection.  `sessionActive` records whether the auth session is still
signed in when the function returns (`auth.signOut` clears it). -/
def submitSignIn (email password : String) (devMode : Bool)
    (authResult : Except String AuthUser) (docs : List (String × UserDoc)) :
    SignInResult :=
  if jsTrim email = "" ∨ password = "" then
    { outcome := .missingFields, currentUser := none
      dashboardShown := false, sessionActive := false }
  else
    match authResult with
    | .error msg =>
        { outcome := .authFailed msg, currentUser := none
          dashboardShown := false, sessionActive := false }
    | .ok user =>
        if user.emailVerified = false ∧ devMode = false then
          { outcome := .unverifiedBlocked, currentUser := none
            dashboardShown := false, sessionActive := false }
        else
          match docs.find? (fun d => d.1 == user.uid) with
          | some d =>
              { outcome := .signedIn, currentUser := some (user.uid, d.2)
                dashboardShown := true, sessionActive := true }
          | none =>
              { outcome := .profileMissing, currentUser := none
                dashboardShown := false, sessionActive := false }

/-- The fields of `currentUser` read by `updateNavbarForSignedInUser`. -/
structure NavUser where
  fullName : String
  username : String
  avatar : Option String
  deriving DecidableEq, Repr

/-- The DOM and global state touched by the navbar update. -/
structure NavbarState where
  navbarUpdateInProgress : Bool
  isSignedInMode : Bool
  profileBtnLabel : String
  signInBtnHidden : Bool
  userNavAreaShown : Bool
  navAvatarSrc : Option String
  navUsernameText : Option String
  deriving DecidableEq, Repr

/-- The default navbar avatar built in `updateNavbarForSignedInUser`
(src/script.js:1764), `encodeURIComponent` modelled as identity. -/
def defaultNavAvatar (fullName : String) : String :=
  "https://ui-avatars.com/api/?name=" ++
    (if fullName = "" then "User" else fullName) ++
    "&background=007bff&color=ffffff&size=40"

/-- The navbar avatar choice (src/script.js:1766-1782): missing, empty,
literal null, localhost or blob URLs fall back to the generated default. -/
def chooseNavAvatar (u : NavUser) : String :=
  match u.avatar with
  | none => defaultNavAvatar u.fullName
  | some a =>
      if strContains "localhost" a || strContains "blob:" a
          || a == "" || a == "null" then
        defaultNavAvatar u.fullName
      else a

/-- The statements of the `try` body of `updateNavbarForSignedInUser`, in
source order, as state transformers (DOM elements are assumed present; a
missing element only skips its own assignment). -/
def navbarBodySteps (cu : Option NavUser) : List (NavbarState → NavbarState) :=
  [ fun s => { s with isSignedInMode := true },
    fun s => { s with profileBtnLabel := "Edit Profile" },
    fun s => { s with signInBtnHidden := true },
    fun s => { s with userNavAreaShown := true },
    fun s =>
      match cu with
      | some u => { s with navAvatarSrc := some (chooseNavAvatar u) }
      | none => s,
    fun s =>
      match cu with
      | some u =>
          if u.username ≠ "" then { s with navUsernameText := some ("@" ++ u.username) }
          else s
      | none => s ]

/-- Runs a list of state transformers in order. -/
def runSteps : List (NavbarState → NavbarState) → NavbarState → NavbarState
  | [], s => s
  | f :: fs, s => runSteps fs (f s)

/-- Embeds `updateNavbarForSignedInUser` (src/script.js:1719-1800, the
guarded copy cited by the claim).  The guard flag is part of the state; an
exception thrown inside the `try` at position `k` of the body is modelled by
`failAt = some k` (the statements before `k` have run, the `catch` only
logs), and the `finally` clears the flag on every path past the guard. -/
def updateNavbarForSignedInUser (failAt : Option Nat) (cu : Option NavUser)
    (s : NavbarState) : NavbarState :=
  if s.navbarUpdateInProgress then s
  else
    let s1 : NavbarState := { s with navbarUpdateInProgress := true }
    let s2 :=
      match failAt with
      | none => runSteps (navbarBodySteps cu) s1
      | some k => runSteps ((navbarBodySteps cu).take k) s1
    { s2 with navbarUpdateInProgress := false }

/-- A user record as used by the friend-request functions: `friends` and
`friendRequests` may be absent (`undefined`) until the code initializes
them. -/
structure FUser where
  id : String
  friends : Option (List String)
  friendRequests : Option (List String)
  deriving DecidableEq, Repr

/-- Replaces the first element satisfying `p` (as `Array.prototype.find`
returns a single reference that the caller mutates). -/
def updateFirst (p : α → Bool) (f : α → α) : List α → List α
  | [] => []
  | x :: xs => if p x then f x :: xs else x :: updateFirst p f xs

/-- Which branch `sendFriendRequest` returned from. -/
inductive SendReqOutcome
  | notSignedIn
  | userNotFound
  | alreadyFriends
  | alreadySent
  | sent
  deriving DecidableEq, Repr

/-- Embeds `sendFriendRequest` (src/script.js:1606-1651): after the guards
(signed in, target found, not already friends, no pending request) it pushes
the current user id onto the target's `friendRequests`.  The array
initializations mutate the objects even on early return. -/
def sendFriendRequest (targetUserId : String) (cu : Option FUser)
    (users : List FUser) : SendReqOutcome × Option FUser × List FUser :=
  match cu with
  | none => (.notSignedIn, none, users)
  | some c =>
      match users.find? (fun u => u.id == targetUserId) with
      | none => (.userNotFound, some c, users)
      | some t =>
          let c1 : FUser := { c with friends := some (c.friends.getD []) }
          let userInit := updateFirst (fun u => u.id == targetUserId)
            (fun u => { u with friendRequests := some (u.friendRequests.getD []) }) users
          if (c1.friends.getD []).contains targetUserId then
            (.alreadyFriends, some c1, userInit)
          else if (t.friendRequests.getD []).contains c1.id then
            (.alreadySent, some c1, userInit)
          else
            (.sent, some c1,
              updateFirst (fun u => u.id == targetUserId)
                (fun u => { u with friendRequests := some (u.friendRequests.getD [] ++ [c1.id]) })
                users)

/-- Embeds `acceptFriendRequest` (src/script.js:1653-1680): with a signed-in
user it unconditionally appends `requesterId` to `currentUser.friends`,
appends the current user id to the requester's `friends` when the requester
is found in `users`, and filters `requesterId` out of
`currentUser.friendRequests`. -/
def acceptFriendRequest (requesterId : String) (cu : Option FUser)
    (users : List FUser) : Option FUser × List FUser :=
  match cu with
  | none => (none, users)
  | some c =>
      let newFriends := c.friends.getD [] ++ [requesterId]
      let users1 := updateFirst (fun u => u.id == requesterId)
        (fun u => { u with friends := some (u.friends.getD [] ++ [c.id]) }) users
      let c1 : FUser :=
        { c with
            friends := some newFriends
            friendRequests := some ((c.friendRequests.getD []).filter (fun i => i ≠ requesterId)) }
      (some c1, users1)

/-- A member of the local `users` array as read and written by
`ensureCurrentUserInUsersArray`.  Optional fields model properties that may
be `undefined`; defined strings are assumed non-empty, matching how the app
produces them, so JavaScript truthiness coincides with `isSome`. -/
structure LocalUser where
  id : Option String
  uid : Option String
  fullName : String
  username : String
  email : String
  avatar : String
  city : String
  stateF : String
  country : String
  interests : List String
  friends : List String
  friendRequests : List String
  messages : List String
  deriving DecidableEq, Repr

/-- The `currentUser` global as read by `ensureCurrentUserInUsersArray`,
with every property the function touches optional. -/
structure CurrentUserR where
  id : Option String
  uid : Option String
  fullName : Option String
  displayName : Option String
  username : Option String
  email : Option String
  avatar : Option String
  city : Option String
  stateF : Option String
  country : Option String
  interests : Option (List String)
  friends : Option (List String)
  friendRequests : Option (List String)
  messages : Option (List String)
  deriving DecidableEq, Repr

/-- The entry `ensureCurrentUserInUsersArray` pushes
(src/script.js:5030-5046).  `generateDefaultAvatar` is not defined anywhere
in the script, so the `typeof` test fails and the avatar default is the
empty string. -/
def mkLocalEntry (c : CurrentUserR) (i : String) : LocalUser :=
  { id := some i
    uid := c.uid
    fullName := (c.fullName.orElse fun _ => c.displayName).getD "User"
    username := c.username.getD
      (match c.email with
       | some e => (e.splitOn "@").headD ""
       | none => "user_" ++ i)
    email := c.email.getD ""
    avatar := c.avatar.getD ""
    city := c.city.getD "Unknown"
    stateF := c.stateF.getD "NA"
    country := c.country.getD "Unknown"
    interests := c.interests.getD []
    friends := c.friends.getD []
    friendRequests := c.friendRequests.getD []
    messages := c.messages.getD [] }

/-- The `find` predicate of `ensureCurrentUserInUsersArray`
(src/script.js:5028): match by id, or by uid when the current user has a
(truthy) uid. -/
def matchesCurrent (i : String) (cuUid : Option String) (u : LocalUser) : Bool :=
  u.id == some i ||
    (match cuUid with
     | some v => u.uid == some v
     | none => false)

/-- The id fill-in of `ensureCurrentUserInUsersArray`
(src/script.js:5019-5021): copy `uid` into a missing `id`. -/
def fillId (c : CurrentUserR) : CurrentUserR :=
  if c.id.isNone && c.uid.isSome then { c with id := c.uid } else c

/-- Embeds `ensureCurrentUserInUsersArray` (src/script.js:5015-5048): fill
a missing `id` from `uid`, bail out without an id, and push a normalized
entry unless some array member already matches by id or uid.  Returns the
(possibly mutated) current user and users array. -/
def ensureCurrentUserInUsersArray (cu : Option CurrentUserR)
    (users : List LocalUser) : Option CurrentUserR × List LocalUser :=
  match cu with
  | none => (none, users)
  | some c0 =>
      let c := fillId c0
      match c.id with
      | none => (some c, users)
      | some i =>
          if users.any (matchesCurrent i c.uid) then (some c, users)
          else (some c, users ++ [mkLocalEntry c i])

/-- The server-timestamp sentinel `firebase.firestore.FieldValue.serverTimestamp()`. -/
inductive ServerTimestamp
  | sentinel
  deriving DecidableEq, Repr

/-- The media descriptor attached to a post (shape irrelevant to the
claims). -/
structure MediaR where
  kind : String
  url : String
  deriving DecidableEq, Repr

/-- A comment (shape irrelevant to the claims; fresh posts carry none). -/
structure CommentR where
  authorId : String
  text : String
  deriving DecidableEq, Repr

/-- A post document as written by `publishPost` (src/script.js:2184-2195):
exactly the fields of the object literal passed to
`db.collection(posts).add`. -/
structure PostDoc where
  authorId : String
  authorName : String
  authorAvatar : Option String
  content : String
  timestamp : ServerTimestamp
  likes : List String
  comments : List CommentR
  shares : Nat
  media : Option MediaR
  deriving DecidableEq, Repr

/-- The fields of `currentUser` read by `publishPost`. -/
structure PublishUser where
  uid : String
  fullName : String
  avatar : Option String
  deriving DecidableEq, Repr

/-- Which branch `publishPost` returned from. -/
inductive PublishOutcome
  | notSignedIn
  | emptyRejected
  | published (doc : PostDoc)
  deriving DecidableEq, Repr

/-- Embeds `publishPost` (src/script.js:2165-2220, the Firebase copy cited
by the claim): reject when signed out or when both the trimmed content and
the attached media are absent, otherwise add the new post document to the
`posts` collection. -/
def publishPost (cu : Option PublishUser) (rawContent : String)
    (attachedMedia : Option MediaR) (postsColl : List PostDoc) :
    PublishOutcome × List PostDoc :=
  match cu with
  | none => (.notSignedIn, postsColl)
  | some u =>
      let content := jsTrim rawContent
      if content = "" ∧ attachedMedia = none then (.emptyRejected, postsColl)
      else
        let newPost : PostDoc :=
          { authorId := u.uid
            authorName := u.fullName
            authorAvatar := u.avatar
            content := content
            timestamp := .sentinel
            likes := []
            comments := []
            shares := 0
            media := attachedMedia }
        (.published newPost, postsColl ++ [newPost])

/-- A user record as read and written by `submitEditProfile`, used both for
`currentUser` and for members of the local `users` array. -/
structure EUser where
  id : Option String
  uid : Option String
  fullName : String
  username : String
  email : String
  city : String
  stateF : String
  country : String
  aboutMe : String
  avatar : Option String
  interests : List String
  password : Option String
  deriving DecidableEq, Repr

/-- The values read from the edit-profile form. -/
structure EditForm where
  fullName : String
  username : String
  email : String
  city : String
  stateF : String
  country : String
  aboutMe : String
  deriving DecidableEq, Repr

/-- Outcome of the image resize step of `submitEditProfile`: the resize
threw (caught, profile update continues without an avatar change) or the
FileReader delivered a result string to the `onload` callback. -/
inductive EditImageOutcome
  | resizeFailed
  | loaded (result : String)
  deriving DecidableEq, Repr

/-- Which branch `submitEditProfile` returned from. -/
inductive EditOutcome
  | notSignedIn
  | missingFields
  | aboutTooLong
  | tooFewInterests
  | conflictTaken
  | pwMissing
  | pwWrong
  | pwInvalid
  | saved
  deriving DecidableEq, Repr

/-- The payload of the Firestore profile update issued by
`submitEditProfile`.  `avatar = none` means the update did not include an
avatar field (the no-image path); `avatar = some v` means it carried the
value `v`. -/
structure RemoteProfileUpdate where
  fullName : String
  username : String
  email : String
  city : String
  stateF : String
  country : String
  aboutMe : String
  interests : List String
  avatar : Option (Option String)
  deriving DecidableEq, Repr

/-- The observable effects of one `submitEditProfile` call.
`storedSnapshot` is the pair of values `saveDataToStorage`
(src/script.js:4355-4375) writes under `truefew_users` and
`truefew_current_user` (it always writes the current user when one is
signed in); `none` when the save was not reached. -/
structure EditResult where
  outcome : EditOutcome
  currentUser : Option EUser
  users : List EUser
  storedSnapshot : Option (List EUser × EUser)
  remoteUpdate : Option RemoteProfileUpdate
  deriving DecidableEq, Repr

/-- The `isCurrentUser` test inside the conflict check of
`submitEditProfile` (src/script.js:4711-4717); `===` on possibly-undefined
properties is option equality, and the last two disjuncts are guarded by
truthiness of the current user's `uid` and `id`. -/
def editIsCurrentUser (c : EUser) (u : EUser) : Bool :=
  u.id == c.id || u.uid == c.uid ||
    (c.uid.isSome && u.id == c.uid) ||
    (c.id.isSome && u.uid == c.id)

/-- The truthy-and-blob-prefixed test
`currentUser.avatar && currentUser.avatar.startsWith(blob-scheme)` of
`submitEditProfile` (src/script.js:4847). -/
def avatarIsBlob (u : EUser) : Bool :=
  match u.avatar with
  | some a => strStartsWith "blob:" a
  | none => false

/-- The mutation block of `submitEditProfile` (src/script.js:4756-4764):
copy the trimmed form values and the selected interests onto the current
user. -/
def editApplyForm (form : EditForm) (selectedInterests : List String)
    (c : EUser) : EUser :=
  { c with
      fullName := jsTrim form.fullName, username := jsTrim form.username
      email := jsTrim form.email, city := jsTrim form.city
      stateF := jsTrim form.stateF, country := jsTrim form.country
      aboutMe := jsTrim form.aboutMe, interests := selectedInterests }

/-- The id fill-in of `submitEditProfile` (src/script.js:4764). -/
def editFillId (c : EUser) : EUser :=
  if c.id.isNone && c.uid.isSome then { c with id := c.uid } else c

/-- An early-return rejection of `submitEditProfile`: nothing saved. -/
def editRejected (o : EditOutcome) (c : EUser) (users : List EUser) :
    EditResult :=
  { outcome := o, currentUser := some c, users := users
    storedSnapshot := none, remoteUpdate := none }

/-- The image branch of `submitEditProfile` after the FileReader delivered
`result` (src/script.js:4778-4840): a `data:` result replaces the avatar,
the users entry matching the current id is replaced, and the Firestore
update includes the avatar. -/
def editSavedImage (result : String) (c2 : EUser) (users : List EUser) :
    EditResult :=
  let c3 :=
    if strStartsWith "data:" result then { c2 with avatar := some result }
    else c2
  let users1 := updateFirst (fun u => u.id == c3.id) (fun _ => c3) users
  { outcome := .saved, currentUser := some c3, users := users1
    storedSnapshot := some (users1, c3)
    remoteUpdate :=
      if c3.uid.isSome then
        some { fullName := c3.fullName, username := c3.username
               email := c3.email, city := c3.city, stateF := c3.stateF
               country := c3.country, aboutMe := c3.aboutMe
               interests := c3.interests, avatar := some c3.avatar }
      else none }

/-- The no-image save path of `submitEditProfile` (src/script.js:4844-4900,
the lines cited by the claim): only when the users array holds an entry
with the current id is a `blob:` avatar deleted and the entry replaced;
the storage snapshot is always written, the Firestore update omits the
avatar. -/
def editSavedNoImage (c2 : EUser) (users : List EUser) : EditResult :=
  let userFound := users.any (fun u => u.id == c2.id)
  let c3 :=
    if userFound && avatarIsBlob c2 then { c2 with avatar := none }
    else c2
  let users1 :=
    if userFound then updateFirst (fun u => u.id == c3.id) (fun _ => c3) users
    else users
  { outcome := .saved, currentUser := some c3, users := users1
    storedSnapshot := some (users1, c3)
    remoteUpdate :=
      if c3.uid.isSome then
        some { fullName := c3.fullName, username := c3.username
               email := c3.email, city := c3.city, stateF := c3.stateF
               country := c3.country, aboutMe := c3.aboutMe
               interests := c3.interests, avatar := none }
      else none }

/-- Embeds `submitEditProfile` (src/script.js:4665-4900, the async copy
cited by the claim).  `img = none` models an empty file input,
`hashPw` models `hashPassword`.  In the source the statement that would
store the new password sits inside a line comment, so the password is never
updated even when the change-password checks pass. -/
def submitEditProfile (form : EditForm) (selectedInterests : List String)
    (img : Option EditImageOutcome) (changePassword : Bool)
    (currentPassword newPassword : String) (hashPw : String → String)
    (cu : Option EUser) (users : List EUser) : EditResult :=
  match cu with
  | none =>
      { outcome := .notSignedIn, currentUser := none, users := users
        storedSnapshot := none, remoteUpdate := none }
  | some c =>
      if jsTrim form.fullName = "" ∨ jsTrim form.username = "" ∨
          jsTrim form.email = "" ∨ jsTrim form.city = "" ∨
          jsTrim form.stateF = "" ∨ jsTrim form.country = "" then
        editRejected .missingFields c users
      else if 500 < (jsTrim form.aboutMe).length then
        editRejected .aboutTooLong c users
      else if selectedInterests.length < 8 then
        editRejected .tooFewInterests c users
      else if users.any (fun u =>
          !(editIsCurrentUser c u) &&
            ((jsToLower u.username) == (jsToLower (jsTrim form.username)) ||
              (jsToLower u.email) == (jsToLower (jsTrim form.email)))) then
        editRejected .conflictTaken c users
      else if changePassword ∧ (currentPassword = "" ∨ newPassword = "") then
        editRejected .pwMissing c users
      else if changePassword ∧ c.password ≠ some (hashPw currentPassword) then
        editRejected .pwWrong c users
      else if changePassword ∧ validatePassword newPassword = false then
        editRejected .pwInvalid c users
      else
        match img with
        | some (.loaded result) =>
            editSavedImage result (editFillId (editApplyForm form selectedInterests c)) users
        | _ =>
            editSavedNoImage (editFillId (editApplyForm form selectedInterests c)) users

/-- A value stored under a localStorage key: it either parses back (`ok`) or
`JSON.parse` throws on it (`corrupt`). -/
inductive Raw (α : Type)
  | ok (a : α)
  | corrupt
  deriving DecidableEq, Repr

/-- A user entry of the persisted `truefew_users` array, restricted to the
fields `initializeApp` touches. -/
structure StoredUser where
  username : String
  fullName : String
  avatar : Option String
  deriving DecidableEq, Repr

/-- A post entry of the persisted `truefew_posts` array: the timestamp is
the serialized string, or absent. -/
structure StoredPost where
  content : String
  timestamp : Option String
  deriving DecidableEq, Repr

/-- A date value after normalization (`new Date(s)` or `new Date()`). -/
inductive DateV
  | fromStr (s : String)
  | now
  deriving DecidableEq, Repr

/-- An in-memory post after timestamp normalization. -/
structure MemPost where
  content : String
  timestamp : DateV
  deriving DecidableEq, Repr

/-- The persisted `truefew_current_user`, restricted to the fields
`initializeApp` touches. -/
structure StoredCU where
  id : Option String
  uid : Option String
  username : String
  deriving DecidableEq, Repr

/-- The five localStorage keys read at startup; `none` models an absent
key. -/
structure Storage where
  users : Option (Raw (List StoredUser))
  posts : Option (Raw (List StoredPost))
  messages : Option (Raw String)
  newsSubscriptions : Option (Raw String)
  currentUser : Option (Raw StoredCU)
  deriving DecidableEq, Repr

/-- The in-memory globals `initializeApp` assigns.  The messages and
subscription payloads are opaque to the claims and kept as raw strings;
`none` means the default empty object was kept. -/
structure InitMem where
  users : List StoredUser
  posts : List MemPost
  messagesData : Option String
  subsData : Option String
  currentUser : Option StoredCU
  deriving DecidableEq, Repr

/-- The default in-memory state before loading. -/
def initialMem : InitMem :=
  { users := [], posts := [], messagesData := none, subsData := none
    currentUser := none }

/-- The result of `initializeApp`: the storage after any key writes or
removals, the loaded in-memory state, and whether the catch-all recovery
notification was shown. -/
structure InitResult where
  storage : Storage
  mem : InitMem
  recoveryWarning : Bool
  deriving DecidableEq, Repr

/-- The avatar-host test of the seeded-user migration
(src/script.js:597). -/
def oldAvatarHost (a : String) : Bool :=
  strContains "unsplash.com" a || strContains "ui-avatars.com" a ||
    strContains "uifaces.co" a || strContains "generated.photos" a

/-- One entry of the seeded-user avatar migration: find the user by
username and swap in the new avatar when the current one points at an old
host. -/
def migrateOne (uname newAvatar : String) (us : List StoredUser) :
    List StoredUser × Bool :=
  match us.find? (fun u => u.username == uname) with
  | some u =>
      match u.avatar with
      | some a =>
          if oldAvatarHost a then
            (updateFirst (fun v => v.username == uname)
              (fun v => { v with avatar := some newAvatar }) us, true)
          else (us, false)
      | none => (us, false)
  | none => (us, false)

/-- The three seeded-user migrations of `initializeApp`
(src/script.js:590-594). -/
def avatarMigrations : List (String × String) :=
  [("alexj", "https://randomuser.me/api/portraits/men/1.jpg"),
   ("sarahc", "https://randomuser.me/api/portraits/women/2.jpg"),
   ("mikez", "https://randomuser.me/api/portraits/men/3.jpg")]

/-- Runs all seeded-user migrations, reporting whether any fired. -/
def runMigrations (us : List StoredUser) : List StoredUser × Bool :=
  avatarMigrations.foldl
    (fun acc m =>
      let r := migrateOne m.1 m.2 acc.1
      (r.1, acc.2 || r.2))
    (us, false)

/-- Timestamp normalization applied to loaded posts
(src/script.js:617-621). -/
def normalizePost (p : StoredPost) : MemPost :=
  { content := p.content
    timestamp :=
      match p.timestamp with
      | some s => .fromStr s
      | none => .now }

/-- The catch-all handler of `initializeApp` (src/script.js:669-674): it
removes only the `truefew_current_user` key, keeps whatever state was
loaded before the failure, and shows the recovery notification. -/
def initOuterCatch (st : Storage) (mem : InitMem) : InitResult :=
  { storage := { st with currentUser := none }, mem := mem
    recoveryWarning := true }

/-- The `truefew_current_user` load step of `initializeApp`
(src/script.js:644-655, navigation elided): on parse success the id is
filled from the uid when missing; a parse failure escapes to the outer
catch. -/
def initStepCurrentUser (st : Storage) (mem : InitMem) : InitResult :=
  match st.currentUser with
  | none => { storage := st, mem := mem, recoveryWarning := false }
  | some .corrupt => initOuterCatch st mem
  | some (.ok c0) =>
      let c := if c0.id.isNone && c0.uid.isSome then { c0 with id := c0.uid } else c0
      { storage := st, mem := { mem with currentUser := some c }
        recoveryWarning := false }

/-- The `truefew_news_subscriptions` load step (src/script.js:637-641): no
local handler, a parse failure escapes to the outer catch. -/
def initStepSubs (st : Storage) (mem : InitMem) : InitResult :=
  match st.newsSubscriptions with
  | none => initStepCurrentUser st mem
  | some .corrupt => initOuterCatch st mem
  | some (.ok s) => initStepCurrentUser st { mem with subsData := some s }

/-- The `truefew_messages` load step (src/script.js:630-634): no local
handler, a parse failure escapes to the outer catch. -/
def initStepMessages (st : Storage) (mem : InitMem) : InitResult :=
  match st.messages with
  | none => initStepSubs st mem
  | some .corrupt => initOuterCatch st mem
  | some (.ok m) => initStepSubs st { mem with messagesData := some m }

/-- The `truefew_posts` load step (src/script.js:611-627): this one has its
own try/catch, so a parse failure removes the `truefew_posts` key and the
load continues; a parsed empty (or non-array) value changes nothing. -/
def initStepPosts (st : Storage) (mem : InitMem) : InitResult :=
  match st.posts with
  | none => initStepMessages st mem
  | some .corrupt => initStepMessages { st with posts := none } mem
  | some (.ok ps) =>
      initStepMessages st
        (if ps.isEmpty then mem else { mem with posts := ps.map normalizePost })

/-- Embeds `initializeApp` (src/script.js:565-675, the copy cited by the
claim; router, console logging and the navbar/dashboard rendering of the
auto-login branch are elided).  The whole body runs inside one try whose
catch is `initOuterCatch`; only the posts load has an inner handler. -/
def initializeApp (st : Storage) : InitResult :=
  match st.users with
  | none => initStepPosts st initialMem
  | some .corrupt => initOuterCatch st initialMem
  | some (.ok us) =>
      let r := runMigrations us
      let st1 := if r.2 then { st with users := some (.ok r.1) } else st
      initStepPosts st1 { initialMem with users := r.1 }

/-- Embeds `loadFromStorage` (src/script.js:4487-4492): read and parse
`truefew_posts` with no error handling at all, so a corrupt value
propagates the `JSON.parse` exception to the caller; an absent key keeps
the current posts. -/
def loadFromStorage (st : Storage) (posts0 : List StoredPost) :
    Except Unit (List StoredPost) :=
  match st.posts with
  | none => .ok posts0
  | some .corrupt => .error ()
  | some (.ok ps) => .ok ps

/-- All required sign-up fields survive trimming (JavaScript truthiness of
the trimmed values). -/
def signUpFieldsPresent (form : SignUpForm) : Prop :=
  jsTrim form.fullName ≠ "" ∧ jsTrim form.username ≠ "" ∧ jsTrim form.email ≠ "" ∧
    form.password ≠ "" ∧ jsTrim form.city ≠ "" ∧ jsTrim form.stateF ≠ "" ∧
    jsTrim form.country ≠ ""

instance (form : SignUpForm) : Decidable (signUpFieldsPresent form) := by
  unfold signUpFieldsPresent; infer_instance

/-- C10: validatePassword accepts exactly the strings over the character
class A-Z, a-z, 0-9, @$!%*?& of length at least eight containing a
lowercase letter, an uppercase letter and a digit; any string with a
character outside the class is refused; and submitSignUp rejects the
attempt (with the backend untouched) whenever validatePassword refuses the
password and the earlier checks pass. -/
theorem C10_validatePassword_characterization :
    (∀ p : String,
      validatePassword p = true ↔
        (8 ≤ p.length ∧ (∀ c ∈ p.data, isAllowedPwChar c = true) ∧
          (∃ c ∈ p.data, isLowerAZ c = true) ∧
          (∃ c ∈ p.data, isUpperAZ c = true) ∧
          (∃ c ∈ p.data, isDigit09 c = true))) ∧
    (∀ p : String, (∃ c ∈ p.data, isAllowedPwChar c = false) →
      validatePassword p = false) ∧
    (∀ (form : SignUpForm) (img : ImageOutcome) (ar : Except String String)
        (b : Backend),
      signUpFieldsPresent form → ¬ form.selectedInterests.length < 8 →
      validatePassword form.password = false →
      submitSignUp form img ar b = (.invalidPassword, b)) := by
  have hchar : ∀ p : String,
      validatePassword p = true ↔
        (8 ≤ p.length ∧ (∀ c ∈ p.data, isAllowedPwChar c = true) ∧
          (∃ c ∈ p.data, isLowerAZ c = true) ∧
          (∃ c ∈ p.data, isUpperAZ c = true) ∧
          (∃ c ∈ p.data, isDigit09 c = true)) := by
    intro p
    by_cases hp : p = ""
    · subst hp
      constructor
      · intro h; simp [validatePassword] at h
      · rintro ⟨h8, -⟩
        have h0 : ("" : String).length = 0 := rfl
        omega
    · have hb : (p == "") = false := by simpa using hp
      simp only [validatePassword, pwLookahead, pwBody, hb, Bool.false_eq_true,
        if_false, Bool.and_eq_true, List.any_eq_true, List.all_eq_true,
        decide_eq_true_eq]
      tauto
  refine ⟨hchar, ?_, ?_⟩
  · intro p ⟨c, hc, hbad⟩
    cases hv : validatePassword p with
    | false => rfl
    | true =>
        rcases (hchar p).mp hv with ⟨-, hall, -⟩
        rw [hall c hc] at hbad
        exact absurd hbad (by simp)
  · intro form img ar b hf hi hbad
    rcases hf with ⟨h1, h2, h3, h4, h5, h6, h7⟩
    unfold submitSignUp
    rw [if_neg (by tauto), if_neg hi, if_pos hbad]

/-- C10 witness: a password of length eight with uppercase, lowercase and a
digit but containing the character # is refused, and a sign-up attempt
carrying it (all fields present, eight interests) is rejected with the
backend unchanged. -/
theorem C10_witness :
    validatePassword "Abcdef1#" = false ∧
    submitSignUp
      { fullName := "Al B", username := "alb", email := "al@x.com",
        password := "Abcdef1#", city := "Paris", stateF := "IDF",
        country := "FR", imageFile := false,
        selectedInterests := ["a","b","c","d","e","f","g","h"] }
      .failure (.ok "u1") { authAccounts := [], userDocs := [] } =
      (.invalidPassword, { authAccounts := [], userDocs := [] }) := by
  refine ⟨?_, ?_⟩
  · exact C10_validatePassword_characterization.2.1 "Abcdef1#"
      ⟨'#', by decide, by decide⟩
  · exact C10_validatePassword_characterization.2.2 _ _ _ _
      (by decide) (by decide)
      (C10_validatePassword_characterization.2.1 "Abcdef1#" ⟨'#', by decide, by decide⟩)

/-- C8: with a signed-in user and non-empty trimmed content or attached
media, publishPost appends to the posts collection exactly one document
whose fields are the author triple, the content, the server-timestamp
sentinel, an empty likes list, an empty comments list, zero shares, and the
attached media descriptor (null when nothing is attached); the PostDoc
structure lists exactly the fields of the object literal. -/
theorem C8_publishPost_document (u : PublishUser) (raw : String)
    (media : Option MediaR) (ps : List PostDoc)
    (h : jsTrim raw ≠ "" ∨ media ≠ none) :
    publishPost (some u) raw media ps =
      (.published
        { authorId := u.uid, authorName := u.fullName,
          authorAvatar := u.avatar, content := jsTrim raw,
          timestamp := .sentinel, likes := [], comments := [], shares := 0,
          media := media },
       ps ++ [{ authorId := u.uid, authorName := u.fullName,
                authorAvatar := u.avatar, content := jsTrim raw,
                timestamp := .sentinel, likes := [], comments := [],
                shares := 0, media := media }]) := by
  simp only [publishPost]
  rw [if_neg (by tauto)]

/-- C8 witness: a concrete signed-in publish with content and no media
yields the fresh document with empty likes and comments, zero shares and
null media. -/
theorem C8_witness :
    publishPost (some { uid := "u1", fullName := "Al", avatar := none })
      "hello world" none [] =
      (.published
        { authorId := "u1", authorName := "Al", authorAvatar := none,
          content := "hello world", timestamp := .sentinel, likes := [],
          comments := [], shares := 0, media := none },
       [{ authorId := "u1", authorName := "Al", authorAvatar := none,
          content := "hello world", timestamp := .sentinel, likes := [],
          comments := [], shares := 0, media := none }]) := by
  exact C8_publishPost_document
    { uid := "u1", fullName := "Al", avatar := none } "hello world" none []
    (Or.inl (by decide))

/-- C6: a call of updateNavbarForSignedInUser entered while the guard flag
is set returns the state unchanged, and every call entered with the flag
clear leaves the flag clear on return, for every failure point of the try
body (none, or an exception caught at any position), so a later call is
never blocked. -/
theorem C6_navbar_guard (failAt : Option Nat) (cu : Option NavUser)
    (s : NavbarState) :
    (s.navbarUpdateInProgress = true →
      updateNavbarForSignedInUser failAt cu s = s) ∧
    (s.navbarUpdateInProgress = false →
      (updateNavbarForSignedInUser failAt cu s).navbarUpdateInProgress = false) := by
  constructor
  · intro h
    unfold updateNavbarForSignedInUser
    rw [if_pos h]
  · intro h
    unfold updateNavbarForSignedInUser
    rw [if_neg (by simp [h])]

/-- C6 witness: with the flag set the call is the identity on a concrete
state; with it clear, a normal call and a call whose body fails at its
third statement both end with the flag clear. -/
theorem C6_witness :
    (updateNavbarForSignedInUser none none
        { navbarUpdateInProgress := true, isSignedInMode := false,
          profileBtnLabel := "Create Profile", signInBtnHidden := false,
          userNavAreaShown := false, navAvatarSrc := none,
          navUsernameText := none } =
      { navbarUpdateInProgress := true, isSignedInMode := false,
        profileBtnLabel := "Create Profile", signInBtnHidden := false,
        userNavAreaShown := false, navAvatarSrc := none,
        navUsernameText := none }) ∧
    ((updateNavbarForSignedInUser none
        (some { fullName := "Al", username := "al", avatar := none })
        { navbarUpdateInProgress := false, isSignedInMode := false,
          profileBtnLabel := "Create Profile", signInBtnHidden := false,
          userNavAreaShown := false, navAvatarSrc := none,
          navUsernameText := none }).navbarUpdateInProgress = false) ∧
    ((updateNavbarForSignedInUser (some 3)
        (some { fullName := "Al", username := "al", avatar := none })
        { navbarUpdateInProgress := false, isSignedInMode := false,
          profileBtnLabel := "Create Profile", signInBtnHidden := false,
          userNavAreaShown := false, navAvatarSrc := none,
          navUsernameText := none }).navbarUpdateInProgress = false) := by
  refine ⟨?_, ?_, ?_⟩
  · exact (C6_navbar_guard none none _).1 rfl
  · exact (C6_navbar_guard none (some _) _).2 rfl
  · exact (C6_navbar_guard (some 3) (some _) _).2 rfl

/-- C9: acceptFriendRequest appends the requester to the signed-in user's
friends unconditionally (so a requester who is already a friend ends up
counted at least twice) and filters the requester out of the pending
requests (a no-op when no request was pending); sendFriendRequest, by
contrast, refuses with alreadyFriends or alreadySent and appends nothing in
those cases. -/
theorem C9_accept_unguarded_send_guarded :
    (∀ (rid : String) (c : FUser) (us : List FUser),
        (acceptFriendRequest rid (some c) us).1 =
          some { c with
                   friends := some (c.friends.getD [] ++ [rid])
                   friendRequests :=
                     some ((c.friendRequests.getD []).filter (fun i => i ≠ rid)) }) ∧
    (∀ (rid : String) (c : FUser) (us : List FUser),
        rid ∈ c.friends.getD [] →
        ∃ l, (acceptFriendRequest rid (some c) us).1 =
            some { c with
                     friends := some l
                     friendRequests :=
                       some ((c.friendRequests.getD []).filter (fun i => i ≠ rid)) } ∧
          2 ≤ l.count rid) ∧
    (∀ (rid : String) (c : FUser) (us : List FUser),
        rid ∉ c.friendRequests.getD [] →
        (acceptFriendRequest rid (some c) us).1 =
          some { c with
                   friends := some (c.friends.getD [] ++ [rid])
                   friendRequests := some (c.friendRequests.getD []) }) ∧
    (∀ (tid : String) (c : FUser) (us : List FUser),
        (us.find? (fun u => u.id == tid)).isSome → tid ∈ c.friends.getD [] →
          sendFriendRequest tid (some c) us =
            (.alreadyFriends,
             some { c with friends := some (c.friends.getD []) },
             updateFirst (fun u => u.id == tid)
               (fun u => { u with friendRequests := some (u.friendRequests.getD []) })
               us)) ∧
    (∀ (tid : String) (c : FUser) (us : List FUser) (t : FUser),
        us.find? (fun u => u.id == tid) = some t →
        tid ∉ c.friends.getD [] → c.id ∈ t.friendRequests.getD [] →
          sendFriendRequest tid (some c) us =
            (.alreadySent,
             some { c with friends := some (c.friends.getD []) },
             updateFirst (fun u => u.id == tid)
               (fun u => { u with friendRequests := some (u.friendRequests.getD []) })
               us)) := by
  have haccept : ∀ (rid : String) (c : FUser) (us : List FUser),
      (acceptFriendRequest rid (some c) us).1 =
        some { c with
                 friends := some (c.friends.getD [] ++ [rid])
                 friendRequests :=
                   some ((c.friendRequests.getD []).filter (fun i => i ≠ rid)) } := by
    intro rid c us; rfl
  refine ⟨haccept, ?_, ?_, ?_, ?_⟩
  · intro rid c us hmem
    refine ⟨c.friends.getD [] ++ [rid], haccept rid c us, ?_⟩
    rw [List.count_append]
    have h1 := List.count_pos_iff.mpr hmem
    have h2 : ([rid] : List String).count rid = 1 := by simp
    omega
  · intro rid c us hnot
    rw [haccept rid c us]
    have : (c.friendRequests.getD []).filter (fun i => i ≠ rid) =
        c.friendRequests.getD [] := by
      rw [List.filter_eq_self]
      intro b hb
      simp only [ne_eq, decide_not, Bool.not_eq_true', decide_eq_false_iff_not]
      exact fun e => hnot (e ▸ hb)
    rw [this]
  · intro tid c us hfind hmem
    rcases Option.isSome_iff_exists.mp hfind with ⟨t, ht⟩
    unfold sendFriendRequest
    rw [ht]
    simp only
    rw [if_pos]
    exact List.elem_eq_true_of_mem hmem
  · intro tid c us t ht hnot hpend
    unfold sendFriendRequest
    rw [ht]
    simp only
    rw [if_neg, if_pos]
    · exact List.elem_eq_true_of_mem hpend
    · simp only [Option.getD_some]
      intro hcon
      exact hnot (List.mem_of_elem_eq_true hcon)

/-- C9 witness: with requester r1 already a friend, accepting duplicates the
entry; with a target already befriended, sending refuses. -/
theorem C9_witness :
    (acceptFriendRequest "r1"
        (some { id := "me", friends := some ["r1"], friendRequests := none }) []).1 =
      some { id := "me", friends := some ["r1", "r1"], friendRequests := some [] } ∧
    sendFriendRequest "t1"
        (some { id := "me", friends := some ["t1"], friendRequests := none })
        [{ id := "t1", friends := none, friendRequests := none }] =
      (.alreadyFriends,
       some { id := "me", friends := some ["t1"], friendRequests := none },
       [{ id := "t1", friends := none, friendRequests := some [] }]) := by
  constructor
  · have h := C9_accept_unguarded_send_guarded.1 "r1"
      { id := "me", friends := some ["r1"], friendRequests := none } []
    simpa using h
  · have h := C9_accept_unguarded_send_guarded.2.2.2.1 "t1"
      { id := "me", friends := some ["t1"], friendRequests := none }
      [{ id := "t1", friends := none, friendRequests := none }]
      (by decide) (by decide)
    simpa [updateFirst] using h

/-- C1 counterexample: with the development bypass flag
(`truefew_dev_mode`) set, a sign-in whose authenticated account has
`emailVerified = false` still sets `currentUser` from the profile document,
shows the dashboard and leaves the session signed in — the claim as stated
is false on the cited code. -/
theorem C1_counterexample :
    (let doc : UserDoc :=
      { fullName := "Al", username := "al", email := "a@b.com", city := "P",
        stateF := "S", country := "C", interests := [], avatar := "x",
        aboutMe := "", friends := [], friendRequests := [], messages := [] }
     submitSignIn "a@b.com" "pw" true
        (.ok { uid := "u1", emailVerified := false }) [("u1", doc)] =
      { outcome := .signedIn, currentUser := some ("u1", doc),
        dashboardShown := true, sessionActive := true }) := by
  decide

/-- C1 (amended): for every sign-in attempt whose authenticated account has
an unverified email, provided the development bypass flag is not set, the
user never reaches the dashboard: currentUser stays unset, the dashboard is
not shown, and the session is signed back out before returning. -/
theorem C1_unverified_blocked_without_devmode (email password : String)
    (u : AuthUser) (docs : List (String × UserDoc))
    (he : jsTrim email ≠ "") (hp : password ≠ "")
    (hv : u.emailVerified = false) :
    submitSignIn email password false (.ok u) docs =
      { outcome := .unverifiedBlocked, currentUser := none,
        dashboardShown := false, sessionActive := false } := by
  unfold submitSignIn
  rw [if_neg (by tauto)]
  simp only
  rw [if_pos ⟨hv, trivial⟩]

/-- C1 witness: a concrete unverified sign-in without the bypass flag is
blocked and signed out. -/
theorem C1_witness :
    submitSignIn "a@b.com" "pw" false
        (.ok { uid := "u1", emailVerified := false }) [] =
      { outcome := .unverifiedBlocked, currentUser := none,
        dashboardShown := false, sessionActive := false } :=
  C1_unverified_blocked_without_devmode "a@b.com" "pw"
    { uid := "u1", emailVerified := false } [] (by decide) (by decide) rfl

/-- C2 counterexample: a sign-up attempt with fewer than eight interests
but an empty required field returns from the missing-fields branch, not
after displaying the interest error, so the claim as stated (which asserts
the interest-error return for every attempt with fewer than eight
interests) is false; the backend is still unchanged. -/
theorem C2_counterexample :
    (let form : SignUpForm :=
      { fullName := "", username := "bob", email := "bob@x.com",
        password := "Passw0rd", city := "Paris", stateF := "IDF",
        country := "FR", imageFile := false, selectedInterests := [] }
     let b : Backend := { authAccounts := [], userDocs := [] }
     form.selectedInterests.length < 8 ∧
       submitSignUp form .failure (.ok "u1") b = (.missingFields, b) ∧
       SignUpOutcome.missingFields ≠ SignUpOutcome.tooFewInterests) := by
  decide

/-- C2 (amended): for every sign-up attempt whose required fields are all
present and which selects fewer than eight interests, the function returns
from the interest-error branch and the backend is unchanged (no auth
account created, no user document written). -/
theorem C2_too_few_interests_rejected (form : SignUpForm)
    (img : ImageOutcome) (ar : Except String String) (b : Backend)
    (hf : signUpFieldsPresent form)
    (hi : form.selectedInterests.length < 8) :
    submitSignUp form img ar b = (.tooFewInterests, b) := by
  rcases hf with ⟨h1, h2, h3, h4, h5, h6, h7⟩
  unfold submitSignUp
  rw [if_neg (by tauto), if_pos hi]

/-- C2 witness: a concrete filled-in attempt with one interest is rejected
with the interest error and an unchanged backend. -/
theorem C2_witness :
    submitSignUp
      { fullName := "Al B", username := "alb", email := "al@x.com",
        password := "Passw0rd", city := "Paris", stateF := "IDF",
        country := "FR", imageFile := false, selectedInterests := ["music"] }
      .failure (.ok "u1") { authAccounts := [], userDocs := [] } =
      (.tooFewInterests, { authAccounts := [], userDocs := [] }) :=
  C2_too_few_interests_rejected _ _ _ _ (by decide) (by decide)

/-- C3 counterexample: a sign-up attempt whose lowercased username is
already taken but which selects fewer than eight interests is rejected
from the interest branch, not with the username-exists notification, so
the claim as stated (which asserts that notification for every attempt
with a duplicate username) is false; the backend is still unchanged. -/
theorem C3_counterexample :
    (let doc : UserDoc :=
      { fullName := "Bob", username := "bob", email := "b@x.com",
        city := "P", stateF := "S", country := "C", interests := [],
        avatar := "x", aboutMe := "", friends := [], friendRequests := [],
        messages := [] }
     let form : SignUpForm :=
      { fullName := "Al", username := "Bob", email := "al@x.com",
        password := "Passw0rd", city := "Paris", stateF := "IDF",
        country := "FR", imageFile := false, selectedInterests := [] }
     let b : Backend := { authAccounts := ["b@x.com"], userDocs := [("u0", doc)] }
     (b.userDocs.any (fun d => d.2.username == jsToLower (jsTrim form.username))) = true ∧
       submitSignUp form .failure (.ok "u1") b = (.tooFewInterests, b) ∧
       SignUpOutcome.tooFewInterests ≠ SignUpOutcome.usernameExists) := by
  decide

/-- C3 (amended): for every sign-up attempt that passes the local
validations (fields present, at least eight interests, valid password) and
whose lowercased trimmed username equals the username of an existing user
document, the attempt is rejected from the username-exists branch and the
backend is unchanged (no auth account created, no user document written). -/
theorem C3_duplicate_username_rejected (form : SignUpForm)
    (img : ImageOutcome) (ar : Except String String) (b : Backend)
    (hf : signUpFieldsPresent form)
    (hi : ¬ form.selectedInterests.length < 8)
    (hpw : validatePassword form.password = true)
    (hdup : (b.userDocs.any
        (fun d => d.2.username == jsToLower (jsTrim form.username))) = true) :
    submitSignUp form img ar b = (.usernameExists, b) := by
  rcases hf with ⟨h1, h2, h3, h4, h5, h6, h7⟩
  unfold submitSignUp
  rw [if_neg (by tauto), if_neg hi, if_neg (by simp [hpw]), if_pos hdup]

/-- C3 witness: a concrete valid attempt whose username collides with an
existing document is rejected with the username-exists outcome and an
unchanged backend. -/
theorem C3_witness :
    (let doc : UserDoc :=
      { fullName := "Bob", username := "bob", email := "b@x.com",
        city := "P", stateF := "S", country := "C", interests := [],
        avatar := "x", aboutMe := "", friends := [], friendRequests := [],
        messages := [] }
     submitSignUp
      { fullName := "Al", username := "Bob", email := "al@x.com",
        password := "Passw0rd", city := "Paris", stateF := "IDF",
        country := "FR", imageFile := false,
        selectedInterests := ["a","b","c","d","e","f","g","h"] }
      .failure (.ok "u1")
      { authAccounts := ["b@x.com"], userDocs := [("u0", doc)] } =
      (.usernameExists,
       { authAccounts := ["b@x.com"], userDocs := [("u0", doc)] })) :=
  C3_duplicate_username_rejected _ _ _ _ (by decide) (by decide) (by decide)
    (by decide)

/-- The id fill-in is idempotent. -/
theorem fillId_idem (c : CurrentUserR) : fillId (fillId c) = fillId c := by
  unfold fillId
  rcases hid : c.id with _ | i <;> rcases huid : c.uid with _ | v <;>
    simp [hid, huid]

/-- Unfolding lemma for `ensureCurrentUserInUsersArray` on a current user
whose (filled) id is present. -/
theorem ensure_of_id (c : CurrentUserR) (users : List LocalUser) (i : String)
    (hfix : fillId c = c) (hid : c.id = some i) :
    ensureCurrentUserInUsersArray (some c) users =
      (if users.any (matchesCurrent i c.uid) then (some c, users)
       else (some c, users ++ [mkLocalEntry c i])) := by
  simp only [ensureCurrentUserInUsersArray]
  rw [hfix, hid]

/-- Unfolding lemma: the call first applies the id fill-in. -/
theorem ensure_some (c0 : CurrentUserR) (users : List LocalUser) :
    ensureCurrentUserInUsersArray (some c0) users =
      ensureCurrentUserInUsersArray (some (fillId c0)) users := by
  simp only [ensureCurrentUserInUsersArray]
  rw [fillId_idem]

/-- Unfolding lemma for `ensureCurrentUserInUsersArray` on a current user
with no id at all. -/
theorem ensure_of_noId (c : CurrentUserR) (users : List LocalUser)
    (hfix : fillId c = c) (hid : c.id = none) :
    ensureCurrentUserInUsersArray (some c) users = (some c, users) := by
  simp only [ensureCurrentUserInUsersArray]
  rw [hfix, hid]

/-- The pushed entry matches the current user by id. -/
theorem matchesCurrent_mkLocalEntry (c : CurrentUserR) (i : String)
    (uid : Option String) : matchesCurrent i uid (mkLocalEntry c i) = true := by
  simp [matchesCurrent, mkLocalEntry]

/-- C7 counterexample: with currentUser id A, uid B, and a users array
whose single entry has a different id X but the same uid B, the call
changes nothing (the uid match short-circuits the push), so afterwards the
users array holds zero entries with id A where the claim demands exactly
one. -/
theorem C7_counterexample :
    (let c0 : CurrentUserR :=
      { id := some "A", uid := some "B", fullName := none,
        displayName := none, username := none, email := none,
        avatar := none, city := none, stateF := none, country := none,
        interests := none, friends := none, friendRequests := none,
        messages := none }
     let u0 : LocalUser :=
      { id := some "X", uid := some "B", fullName := "Bo", username := "bo",
        email := "", avatar := "", city := "", stateF := "", country := "",
        interests := [], friends := [], friendRequests := [], messages := [] }
     ensureCurrentUserInUsersArray (some c0) [u0] = (some c0, [u0]) ∧
       (([u0] : List LocalUser).filter (fun u => u.id == some "A")).length = 0) := by
  decide

/-- C7 (amended): with a null current user, or one with neither id nor uid,
the users array is unchanged; a missing id is filled from the uid and the
call then behaves as with that id; with an id present, the call leaves the
array unchanged when some entry matches by id or uid, and otherwise appends
exactly one entry with that id (so the array then holds exactly one entry
with that id); the whole operation is idempotent.  The claimed "exactly one
entry with that id" postcondition holds only in the append case: a uid-only
match leaves an array with no entry carrying the current id. -/
theorem C7_ensure_current_user (users : List LocalUser) :
    (ensureCurrentUserInUsersArray none users = (none, users)) ∧
    (∀ c : CurrentUserR, c.id = none → c.uid = none →
      ensureCurrentUserInUsersArray (some c) users = (some c, users)) ∧
    (∀ (c : CurrentUserR) (v : String), c.id = none → c.uid = some v →
      ensureCurrentUserInUsersArray (some c) users =
        ensureCurrentUserInUsersArray (some { c with id := some v }) users) ∧
    (∀ (c : CurrentUserR) (i : String), c.id = some i →
      (users.any (matchesCurrent i c.uid) = true →
        ensureCurrentUserInUsersArray (some c) users = (some c, users)) ∧
      (users.any (matchesCurrent i c.uid) = false →
        ensureCurrentUserInUsersArray (some c) users =
          (some c, users ++ [mkLocalEntry c i]) ∧
        ((users ++ [mkLocalEntry c i]).filter
            (fun u => u.id == some i)).length = 1)) ∧
    (∀ cu : Option CurrentUserR,
      ensureCurrentUserInUsersArray
        (ensureCurrentUserInUsersArray cu users).1
        (ensureCurrentUserInUsersArray cu users).2 =
      ensureCurrentUserInUsersArray cu users) := by
  have hfix_of_id : ∀ (c : CurrentUserR) (i : String), c.id = some i →
      fillId c = c := by
    intro c i hid
    unfold fillId
    rw [hid]
    simp
  refine ⟨rfl, ?_, ?_, ?_, ?_⟩
  · intro c h1 h2
    simp [ensureCurrentUserInUsersArray, fillId, h1, h2]
  · intro c v h1 h2
    simp [ensureCurrentUserInUsersArray, fillId, h1, h2]
  · intro c i hid
    have hfix := hfix_of_id c i hid
    constructor
    · intro hany
      rw [ensure_of_id c users i hfix hid, if_pos hany]
    · intro hany
      have hnotmem : ∀ u ∈ users, matchesCurrent i c.uid u = false := by
        intro u hu
        by_contra hcon
        rw [Bool.not_eq_false] at hcon
        have : users.any (matchesCurrent i c.uid) = true :=
          List.any_eq_true.mpr ⟨u, hu, hcon⟩
        rw [this] at hany
        cases hany
      refine ⟨?_, ?_⟩
      · rw [ensure_of_id c users i hfix hid, if_neg (by simp [hany])]
      · have hfil : users.filter (fun u => u.id == some i) = [] := by
          rw [List.filter_eq_nil_iff]
          intro u hu
          have hm := hnotmem u hu
          unfold matchesCurrent at hm
          rcases Bool.or_eq_false_iff.mp hm with ⟨hm1, -⟩
          simp [hm1]
        rw [List.filter_append, hfil]
        have : (mkLocalEntry c i).id == some i := by simp [mkLocalEntry]
        simp [this]
  · intro cu
    cases cu with
    | none => rfl
    | some c0 =>
        rw [ensure_some c0 users]
        have hfix : fillId (fillId c0) = fillId c0 := fillId_idem c0
        cases hcid : (fillId c0).id with
        | none =>
            rw [ensure_of_noId _ users hfix hcid]
            exact ensure_of_noId _ users hfix hcid
        | some i =>
            rw [ensure_of_id _ users i hfix hcid]
            by_cases hany : (users.any (matchesCurrent i (fillId c0).uid)) = true
            · rw [if_pos hany]
              rw [ensure_of_id _ users i hfix hcid, if_pos hany]
            · rw [if_neg hany]
              rw [ensure_of_id _ (users ++ [mkLocalEntry (fillId c0) i]) i hfix hcid,
                if_pos (by rw [List.any_append]; simp [matchesCurrent_mkLocalEntry])]

/-- C7 witness: a fresh current user absent from an empty array is appended
once, and a second call changes nothing. -/
theorem C7_witness :
    (let c0 : CurrentUserR :=
      { id := some "A", uid := some "A", fullName := some "Al",
        displayName := none, username := some "al", email := none,
        avatar := none, city := none, stateF := none, country := none,
        interests := none, friends := none, friendRequests := none,
        messages := none }
     ensureCurrentUserInUsersArray (some c0) [] =
        (some c0, [mkLocalEntry c0 "A"]) ∧
       ((([] ++ [mkLocalEntry c0 "A"] : List LocalUser)).filter
          (fun u => u.id == some "A")).length = 1 ∧
       ensureCurrentUserInUsersArray
         (ensureCurrentUserInUsersArray (some c0) []).1
         (ensureCurrentUserInUsersArray (some c0) []).2 =
         ensureCurrentUserInUsersArray (some c0) []) := by
  refine ⟨?_, ?_, ?_⟩
  · exact (((C7_ensure_current_user []).2.2.2.1
      { id := some "A", uid := some "A", fullName := some "Al",
        displayName := none, username := some "al", email := none,
        avatar := none, city := none, stateF := none, country := none,
        interests := none, friends := none, friendRequests := none,
        messages := none } "A" rfl).2 (by decide)).1
  · exact (((C7_ensure_current_user []).2.2.2.1
      { id := some "A", uid := some "A", fullName := some "Al",
        displayName := none, username := some "al", email := none,
        avatar := none, city := none, stateF := none, country := none,
        interests := none, friends := none, friendRequests := none,
        messages := none } "A" rfl).2 (by decide)).2
  · exact (C7_ensure_current_user []).2.2.2.2 (some
      { id := some "A", uid := some "A", fullName := some "Al",
        displayName := none, username := some "al", email := none,
        avatar := none, city := none, stateF := none, country := none,
        interests := none, friends := none, friendRequests := none,
        messages := none })

/-- A prefix test against an append only looks at the left part when that
part is long enough. -/
theorem strStartsWith_append_left (p s t : String)
    (h : p.data.length ≤ s.data.length) :
    strStartsWith p (s ++ t) = strStartsWith p s := by
  unfold strStartsWith
  rw [String.data_append, List.take_append_of_le_length h]

/-- The generated placeholder avatar never carries the blob scheme. -/
theorem generatedPlaceholder_not_blob (fullName : String) :
    strStartsWith "blob:" (generatedPlaceholder fullName) = false := by
  unfold generatedPlaceholder
  rw [String.append_assoc]
  rw [strStartsWith_append_left "blob:" "https://ui-avatars.com/api/?name="
    (fullName ++ "&size=150&background=667eea&color=fff") (by decide)]
  decide

/-- The avatar computed by submitSignUp never carries the blob scheme: the
final guard rules it out on every path. -/
theorem signUpAvatarUrl_not_blob (fullName : String) (imageFile : Bool)
    (img : ImageOutcome) :
    strStartsWith "blob:" (signUpAvatarUrl fullName imageFile img) = false := by
  unfold signUpAvatarUrl
  set a := (if imageFile then
      match img with
      | .fileRead result =>
          if strStartsWith "data:" result then result else generatedPlaceholder fullName
      | .failure => generatedPlaceholder fullName
    else generatedPlaceholder fullName) with ha
  by_cases hguard : (a == "" || strStartsWith "blob:" a) = true
  · rw [if_pos hguard]
    exact generatedPlaceholder_not_blob fullName
  · rw [if_neg hguard]
    rcases Bool.or_eq_false_iff.mp (Bool.eq_false_iff.mpr hguard) with ⟨-, h2⟩
    exact h2

/-- Does the persisted `truefew_current_user` value of an edit carry a
blob-scheme avatar? -/
def snapshotHasBlobCurrentAvatar (r : EditResult) : Bool :=
  match r.storedSnapshot with
  | some (_, u') => avatarIsBlob u'
  | none => false

/-- Every element of an `updateFirst` either came from the original list or
is the image of the replacement function. -/
theorem mem_updateFirst (p : α → Bool) (f : α → α) (l : List α) (x : α)
    (hx : x ∈ updateFirst p f l) : x ∈ l ∨ ∃ y ∈ l, x = f y := by
  induction l with
  | nil => cases hx
  | cons a as ih =>
      unfold updateFirst at hx
      by_cases hp : p a = true
      · rw [if_pos hp] at hx
        rcases List.mem_cons.mp hx with h | h
        · exact Or.inr ⟨a, List.mem_cons_self a as, h⟩
        · exact Or.inl (List.mem_cons_of_mem a h)
      · rw [if_neg hp] at hx
        rcases List.mem_cons.mp hx with h | h
        · exact Or.inl (h ▸ List.mem_cons_self a as)
        · rcases ih h with h1 | ⟨y, hy, h2⟩
          · exact Or.inl (List.mem_cons_of_mem a h1)
          · exact Or.inr ⟨y, List.mem_cons_of_mem a hy, h2⟩

/-- On the no-image save path, when the users array holds an entry with the
current id, neither the persisted current user nor any users entry gains a
blob-scheme avatar. -/
theorem editSavedNoImage_found_no_blob (c2 : EUser) (users : List EUser)
    (hfound : users.any (fun u => u.id == c2.id) = true) :
    snapshotHasBlobCurrentAvatar (editSavedNoImage c2 users) = false ∧
    (∀ u' ∈ (editSavedNoImage c2 users).users,
      u' ∈ users ∨ avatarIsBlob u' = false) := by
  unfold editSavedNoImage
  simp only [hfound, Bool.true_and, if_true]
  by_cases hb : avatarIsBlob c2 = true
  · rw [if_pos hb]
    constructor
    · simp [snapshotHasBlobCurrentAvatar, avatarIsBlob]
    · intro u' hu'
      rcases mem_updateFirst _ _ _ _ hu' with h | ⟨y, hy, h⟩
      · exact Or.inl h
      · right
        rw [h]
        simp [avatarIsBlob]
  · rw [if_neg hb]
    have hb' : avatarIsBlob c2 = false := Bool.eq_false_iff.mpr hb
    constructor
    · simp [snapshotHasBlobCurrentAvatar, hb']
    · intro u' hu'
      rcases mem_updateFirst _ _ _ _ hu' with h | ⟨y, hy, h⟩
      · exact Or.inl h
      · exact Or.inr (h ▸ hb')

/-- A no-image edit whose current user is found in the users array never
persists a blob-scheme avatar, on any branch of the function. -/
theorem edit_no_image_no_blob (form : EditForm) (ints : List String)
    (cp : Bool) (cpw npw : String) (hashPw : String → String) (c : EUser)
    (users : List EUser) (i : String) (hid : c.id = some i)
    (hfound : users.any (fun u => u.id == some i) = true) :
    snapshotHasBlobCurrentAvatar
      (submitEditProfile form ints none cp cpw npw hashPw (some c) users) = false ∧
    (∀ u' ∈ (submitEditProfile form ints none cp cpw npw hashPw (some c) users).users,
      u' ∈ users ∨ avatarIsBlob u' = false) := by
  have hc2 : editFillId (editApplyForm form ints c) = editApplyForm form ints c := by
    unfold editFillId
    simp [editApplyForm, hid]
  have hc2id : (editFillId (editApplyForm form ints c)).id = some i := by
    rw [hc2]
    simpa [editApplyForm] using hid
  simp only [submitEditProfile]
  split
  · exact ⟨rfl, fun u' hu' => Or.inl hu'⟩
  split
  · exact ⟨rfl, fun u' hu' => Or.inl hu'⟩
  split
  · exact ⟨rfl, fun u' hu' => Or.inl hu'⟩
  split
  · exact ⟨rfl, fun u' hu' => Or.inl hu'⟩
  split
  · exact ⟨rfl, fun u' hu' => Or.inl hu'⟩
  split
  · exact ⟨rfl, fun u' hu' => Or.inl hu'⟩
  split
  · exact ⟨rfl, fun u' hu' => Or.inl hu'⟩
  exact editSavedNoImage_found_no_blob _ users (by rw [hc2id]; exact hfound)

/-- Every user document in the backend after a submitSignUp call either was
already there or carries a non-blob avatar. -/
theorem signUp_docs_no_blob (form : SignUpForm) (img : ImageOutcome)
    (ar : Except String String) (b : Backend) :
    ∀ e ∈ (submitSignUp form img ar b).2.userDocs,
      e ∈ b.userDocs ∨ strStartsWith "blob:" e.2.avatar = false := by
  intro e he
  simp only [submitSignUp] at he
  split at he
  · exact Or.inl he
  split at he
  · exact Or.inl he
  split at he
  · exact Or.inl he
  split at he
  · exact Or.inl he
  split at he
  · exact Or.inl he
  · rcases List.mem_append.mp he with h | h
    · exact Or.inl h
    · right
      rcases List.mem_singleton.mp h with rfl
      exact signUpAvatarUrl_not_blob _ _ _

/-- C5 counterexample: a no-image profile edit by a signed-in user whose
entry is absent from the users array (userIndex is -1) skips the blob-strip
guard, so the blob-scheme avatar on currentUser is persisted to local
storage under the current-user key — the claim as stated is false on the
cited code. -/
theorem C5_counterexample :
    (let c0 : EUser :=
      { id := some "A", uid := some "A", fullName := "Al", username := "al",
        email := "a@b.c", city := "X", stateF := "Y", country := "Z",
        aboutMe := "", avatar := some "blob:dead", interests := [],
        password := none }
     let r := submitEditProfile
       { fullName := "Al", username := "al", email := "a@b.c", city := "X",
         stateF := "Y", country := "Z", aboutMe := "" }
       ["a","b","c","d","e","f","g","h"] none false "" "" (fun s => s)
       (some c0) []
     r.outcome = .saved ∧ snapshotHasBlobCurrentAvatar r = true) := by
  decide

/-- C5 (amended): submitSignUp never writes a blob-scheme avatar into a
user document; submitEditProfile strips a blob-scheme avatar (and so
persists none, to the users array or to the current-user key) whenever the
current user is present in the users array by id — when that entry is
absent, the blob avatar survives and is persisted, as the counterexample
shows. -/
theorem C5_no_blob_avatar_guards :
    (∀ (form : SignUpForm) (img : ImageOutcome) (ar : Except String String)
        (b : Backend),
      ∀ e ∈ (submitSignUp form img ar b).2.userDocs,
        e ∈ b.userDocs ∨ strStartsWith "blob:" e.2.avatar = false) ∧
    (∀ (form : EditForm) (ints : List String) (cp : Bool) (cpw npw : String)
        (hashPw : String → String) (c : EUser) (users : List EUser)
        (i : String),
      c.id = some i → users.any (fun u => u.id == some i) = true →
      snapshotHasBlobCurrentAvatar
        (submitEditProfile form ints none cp cpw npw hashPw (some c) users) = false ∧
      (∀ u' ∈ (submitEditProfile form ints none cp cpw npw hashPw
          (some c) users).users,
        u' ∈ users ∨ avatarIsBlob u' = false)) :=
  ⟨signUp_docs_no_blob,
   fun form ints cp cpw npw hashPw c users i hid hfound =>
     edit_no_image_no_blob form ints cp cpw npw hashPw c users i hid hfound⟩

/-- C5 witness: a concrete sign-up document carries a non-blob avatar, and
a concrete no-image edit whose user is present in the array persists no
blob avatar. -/
theorem C5_witness :
    (∀ e ∈ (submitSignUp
        { fullName := "Al B", username := "alb", email := "al@x.com",
          password := "Passw0rd", city := "Paris", stateF := "IDF",
          country := "FR", imageFile := false,
          selectedInterests := ["a","b","c","d","e","f","g","h"] }
        .failure (.ok "u1") { authAccounts := [], userDocs := [] }).2.userDocs,
      e ∈ ({ authAccounts := [], userDocs := [] } : Backend).userDocs ∨
        strStartsWith "blob:" e.2.avatar = false) ∧
    snapshotHasBlobCurrentAvatar
      (submitEditProfile
        { fullName := "Al", username := "al", email := "a@b.c", city := "X",
          stateF := "Y", country := "Z", aboutMe := "" }
        ["a","b","c","d","e","f","g","h"] none false "" "" (fun s => s)
        (some { id := some "A", uid := some "A", fullName := "Al",
                username := "al", email := "a@b.c", city := "X",
                stateF := "Y", country := "Z", aboutMe := "",
                avatar := some "blob:dead", interests := [],
                password := none })
        [{ id := some "A", uid := some "A", fullName := "Al",
           username := "al", email := "a@b.c", city := "X", stateF := "Y",
           country := "Z", aboutMe := "", avatar := none, interests := [],
           password := none }]) = false :=
  ⟨C5_no_blob_avatar_guards.1 _ _ _ _,
   (C5_no_blob_avatar_guards.2 _ _ _ _ _ _ _ _ "A" rfl (by decide)).1⟩

/-- C4 counterexample: with a corrupt truefew_users value (and all other
keys present and well-formed), initializeApp falls into the catch-all
handler: the corrupt truefew_users key is NOT deleted, the key it deletes
is truefew_current_user, and none of the other keys are loaded into memory
— the claim (delete the corrupted key itself, for each of the five keys) is
false on the cited code. -/
theorem C4_counterexample :
    (let st0 : Storage :=
      { users := some .corrupt,
        posts := some (.ok [{ content := "p1", timestamp := some "2024" }]),
        messages := some (.ok "m"), newsSubscriptions := some (.ok "s"),
        currentUser := some (.ok { id := some "A", uid := some "A",
                                   username := "al" }) }
     initializeApp st0 =
       { storage :=
           { users := some .corrupt,
             posts := some (.ok [{ content := "p1", timestamp := some "2024" }]),
             messages := some (.ok "m"),
             newsSubscriptions := some (.ok "s"), currentUser := none }
         mem := initialMem, recoveryWarning := true } ∧
     (initializeApp st0).storage.users = some .corrupt) := by
  decide

/-- C4 (amended): only the truefew_posts load in initializeApp recovers a
corrupt value by deleting that same key and continuing (conjunct one: the
posts key is removed, the rest of the load proceeds, no recovery warning).
A corrupt value under any of the other four keys aborts into the catch-all
handler, which deletes only truefew_current_user, skips the remaining
loads, keeps the default in-memory state and shows the recovery warning:
for truefew_users (conjunct two), truefew_messages (conjunct three) and
truefew_news_subscriptions (conjunct four) the corrupt key itself is left
in place — the resulting storage changes only the currentUser key — and
only for a corrupt truefew_current_user (conjunct five) does the deleted
key coincide with the corrupt one.  Finally (conjunct six), loadFromStorage
has no handler at all and propagates the parse exception to its caller. -/
theorem C4_corrupt_key_recovery :
    (∀ st : Storage, st.users = none → st.messages = none →
      st.newsSubscriptions = none → st.currentUser = none →
      st.posts = some .corrupt →
      initializeApp st =
        { storage := { st with posts := none }, mem := initialMem,
          recoveryWarning := false }) ∧
    (∀ st : Storage, st.users = some .corrupt →
      initializeApp st =
        { storage := { st with currentUser := none }, mem := initialMem,
          recoveryWarning := true } ∧
      (initializeApp st).storage.users = some .corrupt) ∧
    (∀ st : Storage, st.users = none → st.posts = none →
      st.messages = some .corrupt →
      initializeApp st =
        { storage := { st with currentUser := none }, mem := initialMem,
          recoveryWarning := true } ∧
      (initializeApp st).storage.messages = some .corrupt) ∧
    (∀ st : Storage, st.users = none → st.posts = none →
      st.messages = none → st.newsSubscriptions = some .corrupt →
      initializeApp st =
        { storage := { st with currentUser := none }, mem := initialMem,
          recoveryWarning := true } ∧
      (initializeApp st).storage.newsSubscriptions = some .corrupt) ∧
    (∀ st : Storage, st.users = none → st.posts = none →
      st.messages = none → st.newsSubscriptions = none →
      st.currentUser = some .corrupt →
      initializeApp st =
        { storage := { st with currentUser := none }, mem := initialMem,
          recoveryWarning := true } ∧
      (initializeApp st).storage.currentUser = none) ∧
    (∀ (st : Storage) (ps : List StoredPost), st.posts = some .corrupt →
      loadFromStorage st ps = .error ()) := by
  refine ⟨?_, ?_, ?_, ?_, ?_, ?_⟩
  · intro st h1 h2 h3 h4 h5
    simp [initializeApp, initStepPosts, initStepMessages, initStepSubs,
      initStepCurrentUser, h1, h2, h3, h4, h5]
  · intro st h
    constructor
    · simp [initializeApp, initOuterCatch, h]
    · simp [initializeApp, initOuterCatch, h]
  · intro st h1 h2 h3
    constructor
    · simp [initializeApp, initStepPosts, initStepMessages, initOuterCatch,
        h1, h2, h3]
    · simp [initializeApp, initStepPosts, initStepMessages, initOuterCatch,
        h1, h2, h3]
  · intro st h1 h2 h3 h4
    constructor
    · simp [initializeApp, initStepPosts, initStepMessages, initStepSubs,
        initOuterCatch, h1, h2, h3, h4]
    · simp [initializeApp, initStepPosts, initStepMessages, initStepSubs,
        initOuterCatch, h1, h2, h3, h4]
  · intro st h1 h2 h3 h4 h5
    constructor
    · simp [initializeApp, initStepPosts, initStepMessages, initStepSubs,
        initStepCurrentUser, initOuterCatch, h1, h2, h3, h4, h5]
    · simp [initializeApp, initStepPosts, initStepMessages, initStepSubs,
        initStepCurrentUser, initOuterCatch, h1, h2, h3, h4, h5]
  · intro st ps h
    simp [loadFromStorage, h]

/-- C4 witness: concrete storages exercising the posts-key recovery, the
catch-all for each of the four unguarded keys, and the loadFromStorage
propagation. -/
theorem C4_witness :
    initializeApp
      { users := none, posts := some .corrupt, messages := none,
        newsSubscriptions := none, currentUser := none } =
      { storage := { users := none, posts := none, messages := none,
                     newsSubscriptions := none, currentUser := none }
        mem := initialMem, recoveryWarning := false } ∧
    initializeApp
      { users := some .corrupt, posts := none, messages := none,
        newsSubscriptions := none, currentUser := some (.ok
          { id := some "A", uid := some "A", username := "al" }) } =
      { storage := { users := some .corrupt, posts := none,
                     messages := none, newsSubscriptions := none,
                     currentUser := none }
        mem := initialMem, recoveryWarning := true } ∧
    initializeApp
      { users := none, posts := none, messages := some .corrupt,
        newsSubscriptions := none, currentUser := none } =
      { storage := { users := none, posts := none,
                     messages := some .corrupt, newsSubscriptions := none,
                     currentUser := none }
        mem := initialMem, recoveryWarning := true } ∧
    initializeApp
      { users := none, posts := none, messages := none,
        newsSubscriptions := some .corrupt, currentUser := none } =
      { storage := { users := none, posts := none, messages := none,
                     newsSubscriptions := some .corrupt,
                     currentUser := none }
        mem := initialMem, recoveryWarning := true } ∧
    initializeApp
      { users := none, posts := none, messages := none,
        newsSubscriptions := none, currentUser := some .corrupt } =
      { storage := { users := none, posts := none, messages := none,
                     newsSubscriptions := none, currentUser := none }
        mem := initialMem, recoveryWarning := true } ∧
    loadFromStorage
      { users := none, posts := some .corrupt, messages := none,
        newsSubscriptions := none, currentUser := none } [] = .error () :=
  ⟨C4_corrupt_key_recovery.1 _ rfl rfl rfl rfl rfl,
   (C4_corrupt_key_recovery.2.1 _ rfl).1,
   (C4_corrupt_key_recovery.2.2.1 _ rfl rfl rfl).1,
   (C4_corrupt_key_recovery.2.2.2.1 _ rfl rfl rfl rfl).1,
   (C4_corrupt_key_recovery.2.2.2.2.1 _ rfl rfl rfl rfl rfl).1,
   C4_corrupt_key_recovery.2.2.2.2.2 _ [] rfl⟩

end TrueFew
